import Mathlib

/-!
# Verification of the camoufox-server browser manager

Shallow embedding of `packages/actionbook-rs/python/camoufox-server/browser.py`:
the accessibility projector (`_convert_snapshot`, `_is_interactive`) and the
session/tab registry (`create_tab`, `_get_tab`, `get_active_tab_for_session`,
`navigate`, `click`, `type_text`, `screenshot`, `get_accessibility_tree`,
`cleanup`).

Python dictionaries are modelled as insertion-ordered association lists with
in-place overwrite (`dinsert`); exceptions raised through FastAPI are modelled
as an `Except HTTPException` result; the outcome of external browser calls
(navigation, click, fill, screenshot, snapshot retrieval) is supplied by
oracle parameters, since the browser itself is outside the code under
verification.
-/

/-- A raw Playwright accessibility-snapshot node: optional `role` and `name`
keys, and a (possibly absent, here: possibly empty) list of children, each of
which may be null.  Mirrors the dict shape consumed by `_convert_snapshot`;
an absent or null `children` key and an empty list behave identically in the
Python truthiness test, so both are modelled by `[]`. -/
inductive SnapNode where
  | mk (role : Option String) (name : Option String)
      (children : List (Option SnapNode)) : SnapNode
deriving Repr

/-- The projected response node built by `_convert_snapshot`: `role` (defaulted
to "generic"), `name` as given, an optional `elementRef`, and an optional
children list (`none` models the key being absent from the result dict). -/
inductive OutNode where
  | mk (role : String) (name : Option String) (elementRef : Option String)
      (children : Option (List OutNode)) : OutNode
deriving Repr

def SnapNode.roleOf : SnapNode → Option String
  | .mk r _ _ => r

def SnapNode.nameOf : SnapNode → Option String
  | .mk _ n _ => n

def SnapNode.childrenOf : SnapNode → List (Option SnapNode)
  | .mk _ _ c => c

def OutNode.role : OutNode → String
  | .mk r _ _ _ => r

def OutNode.nameOf : OutNode → Option String
  | .mk _ n _ _ => n

def OutNode.elementRef : OutNode → Option String
  | .mk _ _ e _ => e

def OutNode.childrenOf : OutNode → Option (List OutNode)
  | .mk _ _ _ c => c

/-- The literal role set of `_is_interactive` (browser.py lines 145-161),
in source order. -/
def interactive_roles : List String :=
  ["button", "link", "textbox", "checkbox", "radio",
   "combobox", "menuitem", "tab", "switch", "searchbox",
   "navigation", "menubar", "menu", "menuitemcheckbox",
   "menuitemradio", "option", "progressbar", "scrollbar",
   "slider", "spinbutton", "tablist", "tabpanel",
   "heading", "article", "section", "banner", "complementary",
   "contentinfo", "form", "main", "region", "search",
   "paragraph", "listitem", "img", "figure"]

/-- Python `str.lower()`: character-wise lowercasing (written out explicitly
so that it evaluates inside the kernel). -/
def pyLower (s : String) : String := ⟨s.data.map Char.toLower⟩

/-- `_is_interactive(role)`: false on null role, else case-insensitive
membership in `interactive_roles` (`role.lower() in interactive_roles`). -/
def is_interactive : Option String → Bool
  | none => false
  | some r => interactive_roles.contains (pyLower r)

/-- The closed interactive-role list as enumerated in the spec's Glossary. -/
def glossary_roles : List String :=
  ["button", "link", "textbox", "checkbox", "radio", "combobox", "menuitem",
   "tab", "switch", "searchbox", "navigation", "menubar", "menu",
   "menuitemcheckbox", "menuitemradio", "option", "progressbar", "scrollbar",
   "slider", "spinbutton", "tablist", "tabpanel", "heading", "article",
   "section", "banner", "complementary", "contentinfo", "form", "main",
   "region", "search", "paragraph", "listitem", "img", "figure"]

/-- Python truthiness of `node.get("name")` for a string-or-absent value:
present and non-empty. -/
def nameTruthy : Option String → Bool
  | none => false
  | some s => !s.isEmpty

/-- State of one browser tab (`TabState`): identifier, current URL, the
`element_map` (element ref → selector, insertion-ordered), and `ref_counter`.
The page handle itself is external and not modelled. -/
structure TabState where
  id : String
  url : String
  element_map : List (String × String)
  ref_counter : Nat
deriving Repr, DecidableEq

/-- Python `dict` lookup `m.get(k)` on an association list. -/
def dlookup {α : Type} : List (String × α) → String → Option α
  | [], _ => none
  | (k, v) :: rest, key => if k = key then some v else dlookup rest key

/-- Python `dict` assignment `m[k] = v`: overwrite in place if the key is
present (keeping its position), append otherwise. -/
def dinsert {α : Type} : List (String × α) → String → α → List (String × α)
  | [], key, v => [(key, v)]
  | (k, w) :: rest, key, v =>
      if k = key then (key, v) :: rest else (k, w) :: dinsert rest key v

/-- The ref-assignment step of `_convert_snapshot` (lines 118-127): if the
node's name is truthy and its role interactive, bump the counter, form the
reference "e<counter>", and record the text selector in the element map. -/
def refAssign (role name : Option String) (tab : TabState) :
    Option String × TabState :=
  if nameTruthy name && is_interactive role then
    let c := tab.ref_counter + 1
    let r := "e" ++ toString c
    let sel := "text=\"" ++ name.getD "" ++ "\""
    (some r, { tab with ref_counter := c,
                        element_map := dinsert tab.element_map r sel })
  else
    (none, tab)

mutual
/-- `_convert_snapshot(node, tab)` on a non-null node: build the result dict
and thread the mutated tab state.  The children field is attached exactly when
the raw children list is truthy (non-empty), holding the conversions of its
non-null entries. -/
def convertSnapshot : SnapNode → TabState → OutNode × TabState
  | .mk role name children, tab =>
    let rt := refAssign role name tab
    let kt := convertChildren children rt.2
    (OutNode.mk (role.getD "generic") name rt.1
      (if children.isEmpty then none else some kt.1), kt.2)

/-- The list comprehension of lines 131-135: recurse over children in order,
skipping null entries, threading the tab state. -/
def convertChildren : List (Option SnapNode) → TabState → List OutNode × TabState
  | [], tab => ([], tab)
  | none :: rest, tab => convertChildren rest tab
  | some c :: rest, tab =>
    let ot := convertSnapshot c tab
    let ost := convertChildren rest ot.2
    (ot.1 :: ost.1, ost.2)
end

mutual
/-- Number of nodes of a snapshot subtree that get an element reference. -/
def countInteractive : SnapNode → Nat
  | .mk role name children =>
    (if nameTruthy name && is_interactive role then 1 else 0) +
      countInteractiveChildren children

def countInteractiveChildren : List (Option SnapNode) → Nat
  | [] => 0
  | none :: rest => countInteractiveChildren rest
  | some c :: rest => countInteractive c + countInteractiveChildren rest
end

mutual
/-- All nodes of a projected tree, root first, depth-first pre-order. -/
def allNodes : OutNode → List OutNode
  | .mk r n e c => OutNode.mk r n e c :: allNodesOpt c

def allNodesOpt : Option (List OutNode) → List OutNode
  | none => []
  | some l => allNodesList l

def allNodesList : List OutNode → List OutNode
  | [] => []
  | x :: xs => allNodes x ++ allNodesList xs
end

/-- The element references emitted by a projected tree, in depth-first
pre-order (root's reference, if any, before those of its children). -/
def emittedRefs (o : OutNode) : List String :=
  (allNodes o).filterMap OutNode.elementRef

/-- `emittedRefs` over a list of sibling trees. -/
def emittedRefsList (l : List OutNode) : List String :=
  (allNodesList l).filterMap OutNode.elementRef

/-- The reference names "e<c+1>", "e<c+2>", ..., "e<c+n>". -/
def refRange : Nat → Nat → List String
  | _, 0 => []
  | c, n + 1 => ("e" ++ toString (c + 1)) :: refRange (c + 1) n

/-- FastAPI `HTTPException`: a status code and a textual detail. -/
structure HTTPException where
  status_code : Nat
  detail : String
deriving Repr, DecidableEq

/-- Python `repr` of a string (single-quoted), as it appears inside
f-string interpolations of lists of keys. -/
def pyStrRepr (s : String) : String := "\x27" ++ s ++ "\x27"

/-- Python `repr` of a list of strings, e.g. `["e1", "e2"]` prints as
a bracketed, comma-separated list of single-quoted entries. -/
def pyListRepr (xs : List String) : String :=
  "[" ++ String.intercalate ", " (xs.map pyStrRepr) ++ "]"

/-- State of `CamofoxBrowserManager`: whether the lazily created browser
handle exists (`browser is not None`), the `tabs` map (tab id → TabState) and
the `session_tabs` map (session key → latest tab id). -/
structure Registry where
  browserStarted : Bool
  tabs : List (String × TabState)
  session_tabs : List (String × String)
deriving Repr, DecidableEq

/-- The manager's initial state (`__init__`). -/
def initialRegistry : Registry :=
  { browserStarted := false, tabs := [], session_tabs := [] }

/-- A browser-page side effect actually issued to the underlying page
(`page.click` / `page.fill`).  Used to state that failed reference resolution
never reaches the page. -/
inductive PageAction where
  | click (selector : String) : PageAction
  | fill (selector : String) (text : String) : PageAction
deriving Repr, DecidableEq

/-- `create_tab(user_id, session_key, url)`: ensure the browser, open a page
and navigate.  `tab_id` stands for the fresh `uuid4` and `navOk`/`emsg` are
the outcome of `page.goto`.  On failure the page is closed again and an
HTTP 500 is raised, with the browser left started; on success the tab is
registered and recorded as the session's latest tab. -/
def create_tab (reg : Registry) (user_id session_key url : String)
    (tab_id : String) (navOk : Bool) (emsg : String) :
    Except HTTPException TabState × Registry :=
  let reg1 := { reg with browserStarted := true }
  if navOk then
    let tab : TabState :=
      { id := tab_id, url := url, element_map := [], ref_counter := 0 }
    (.ok tab,
     { reg1 with tabs := dinsert reg1.tabs tab_id tab,
                 session_tabs := dinsert reg1.session_tabs session_key tab_id })
  else
    (.error { status_code := 500, detail := "Navigation failed: " ++ emsg },
     reg1)

/-- `_get_tab(tab_id, user_id)`: lookup, or a 404 listing the known ids. -/
def getTab (reg : Registry) (tab_id : String) (user_id : String) :
    Except HTTPException TabState :=
  match dlookup reg.tabs tab_id with
  | some tab => .ok tab
  | none =>
    .error { status_code := 404,
             detail := "Tab not found: " ++ tab_id ++ ". Available tabs: " ++
               pyListRepr (reg.tabs.map Prod.fst) }

/-- `get_active_tab_for_session(session_key)`: pure lookup. -/
def get_active_tab_for_session (reg : Registry) (session_key : String) :
    Option String :=
  dlookup reg.session_tabs session_key

/-- `navigate(tab_id, user_id, url)`: resolve the tab, run `page.goto`
(outcome `navOk`/`emsg`); on success set the URL and reset the element map
and counter, on failure raise HTTP 500 leaving all state untouched. -/
def navigate (reg : Registry) (tab_id user_id url : String)
    (navOk : Bool) (emsg : String) : Except HTTPException Unit × Registry :=
  match getTab reg tab_id user_id with
  | .error e => (.error e, reg)
  | .ok tab =>
    if navOk then
      let tab1 : TabState :=
        { tab with url := url, element_map := [], ref_counter := 0 }
      (.ok (), { reg with tabs := dinsert reg.tabs tab_id tab1 })
    else
      (.error { status_code := 500, detail := "Navigation failed: " ++ emsg },
       reg)

/-- `click(tab_id, user_id, element_ref)`: resolve the tab, then the
selector (`if not selector` also treats an empty selector as unknown); a
400 listing the valid refs if unknown, otherwise issue `page.click` whose
outcome is `actionOk`/`emsg`.  The second component is the list of page
actions actually issued. -/
def click (reg : Registry) (tab_id user_id element_ref : String)
    (actionOk : Bool) (emsg : String) :
    Except HTTPException Unit × List PageAction :=
  match getTab reg tab_id user_id with
  | .error e => (.error e, [])
  | .ok tab =>
    let sel := (dlookup tab.element_map element_ref).getD ""
    if sel.isEmpty then
      (.error { status_code := 400,
                detail := "Unknown element ref: " ++ element_ref ++
                  ". Available refs: " ++
                  pyListRepr (tab.element_map.map Prod.fst) }, [])
    else if actionOk then
      (.ok (), [PageAction.click sel])
    else
      (.error { status_code := 500, detail := "Click failed: " ++ emsg },
       [PageAction.click sel])

/-- `type_text(tab_id, user_id, element_ref, text)`: like `click`, but the
unknown-ref detail names only the ref (no list of valid refs), and the page
action is `page.fill`. -/
def type_text (reg : Registry) (tab_id user_id element_ref text : String)
    (actionOk : Bool) (emsg : String) :
    Except HTTPException Unit × List PageAction :=
  match getTab reg tab_id user_id with
  | .error e => (.error e, [])
  | .ok tab =>
    let sel := (dlookup tab.element_map element_ref).getD ""
    if sel.isEmpty then
      (.error { status_code := 400,
                detail := "Unknown element ref: " ++ element_ref }, [])
    else if actionOk then
      (.ok (), [PageAction.fill sel text])
    else
      (.error { status_code := 500, detail := "Type failed: " ++ emsg },
       [PageAction.fill sel text])

/-- `screenshot(tab_id, user_id)`: resolve the tab, capture (outcome
`ok`, base64 `data`, else `emsg`).  No registry state is touched. -/
def screenshot (reg : Registry) (tab_id user_id : String)
    (ok : Bool) (data emsg : String) : Except HTTPException String :=
  match getTab reg tab_id user_id with
  | .error e => .error e
  | .ok _ =>
    if ok then .ok data
    else .error { status_code := 500, detail := "Screenshot failed: " ++ emsg }

/-- `get_accessibility_tree(tab_id, user_id)`: resolve the tab, take the
accessibility snapshot (`snap`, `none` when the snapshot call fails or
returns null), convert it (mutating the tab), and store the mutated tab
back.  The failure detail wraps the inner exception text. -/
def get_accessibility_tree (reg : Registry) (tab_id user_id : String)
    (snap : Option SnapNode) : Except HTTPException OutNode × Registry :=
  match getTab reg tab_id user_id with
  | .error e => (.error e, reg)
  | .ok tab =>
    match snap with
    | none =>
      (.error { status_code := 500,
                detail := "Failed to get accessibility tree: " ++
                  "500: Failed to get accessibility snapshot" }, reg)
    | some s =>
      let (tree, tab1) := convertSnapshot s tab
      (.ok tree, { reg with tabs := dinsert reg.tabs tab_id tab1 })

/-- `cleanup()`: best-effort close of every page (failures swallowed, not
modelled since pages are external), clear the tab map, tear down the browser
handle.  The session map is left as is.  Total: never raises. -/
def cleanup (reg : Registry) : Registry :=
  { reg with tabs := [], browserStarted := false }

/-- One registry operation together with the oracle outcomes of its
underlying browser calls. -/
inductive Op where
  | opCreate (user_id session_key url tab_id : String)
      (navOk : Bool) (emsg : String) : Op
  | opNavigate (tab_id user_id url : String) (navOk : Bool) (emsg : String) : Op
  | opClick (tab_id user_id element_ref : String)
      (actionOk : Bool) (emsg : String) : Op
  | opType (tab_id user_id element_ref text : String)
      (actionOk : Bool) (emsg : String) : Op
  | opScreenshot (tab_id user_id : String) (ok : Bool) (data emsg : String) : Op
  | opSnapshot (tab_id user_id : String) (snap : Option SnapNode) : Op
  | opCleanup : Op

/-- Whether an operation is `cleanup`. -/
def Op.isCleanup : Op → Bool
  | .opCleanup => true
  | _ => false

/-- The registry state after one operation (errors leave the state the
operation leaves behind). -/
def step (reg : Registry) : Op → Registry
  | .opCreate u k url tid ok em => (create_tab reg u k url tid ok em).2
  | .opNavigate tid u url ok em => (navigate reg tid u url ok em).2
  | .opClick _ _ _ _ _ => reg
  | .opType _ _ _ _ _ _ => reg
  | .opScreenshot _ _ _ _ _ => reg
  | .opSnapshot tid u snap => (get_accessibility_tree reg tid u snap).2
  | .opCleanup => cleanup reg

/-- The registry state after a sequence of operations from a start state. -/
def run (reg : Registry) (ops : List Op) : Registry :=
  ops.foldl step reg

/-- The claimed invariant: every session key resolves to a tab id currently
present in the tab map. -/
def SessionInv (reg : Registry) : Prop :=
  ∀ k tid, dlookup reg.session_tabs k = some tid →
    tid ∈ reg.tabs.map Prod.fst

/-! ## Concrete instances used by witnesses and counterexamples -/

/-- A fresh tab as produced by `create_tab`. -/
def exTab0 : TabState :=
  { id := "t1", url := "https://example.com", element_map := [],
    ref_counter := 0 }

/-- A tab holding stale projector state from an earlier page. -/
def exTabStale : TabState :=
  { id := "t1", url := "https://old.example",
    element_map := [("e1", "text=\"x\"")], ref_counter := 7 }

/-- A registry with one tab and one session. -/
def exReg : Registry :=
  { browserStarted := true, tabs := [("t1", exTabStale)],
    session_tabs := [("s", "t1")] }

/-- A small snapshot: a page with an interactive button, a null child, and a
link (case-insensitive role) with a non-interactive child. -/
def exSnap : SnapNode :=
  SnapNode.mk (some "WebArea") (some "page")
    [some (SnapNode.mk (some "button") (some "OK") []),
     none,
     some (SnapNode.mk (some "Link") (some "Home")
       [some (SnapNode.mk (some "generic") (some "x") [])])]

/-- A node whose children list is non-empty but contains only a null entry. -/
def exSnapNullChild : SnapNode := SnapNode.mk (some "generic") none [none]

/-- Create a tab, then clean up. -/
def exOpsCleanup : List Op :=
  [Op.opCreate "u" "s" "http://x" "t1" true "", Op.opCleanup]

/-- Create a tab, then clean up (distinct data, for the cleanup claim). -/
def exOpsCleanup6 : List Op :=
  [Op.opCreate "u2" "sess" "http://y" "t9" true "", Op.opCleanup]

/-- A cleanup-free operation sequence. -/
def exOpsNoCleanup : List Op :=
  [Op.opCreate "u" "s" "http://x" "t1" true "",
   Op.opNavigate "t1" "u" "http://z" true "",
   Op.opSnapshot "t1" "u" (some exSnap)]

/-! ## Association-list lemmas -/

theorem dlookup_dinsert {α : Type} (m : List (String × α)) (k : String)
    (v : α) (key : String) :
    dlookup (dinsert m k v) key = if key = k then some v else dlookup m key := by
  induction m with
  | nil =>
    by_cases h : key = k
    · subst h; simp [dinsert, dlookup]
    · have h2 : ¬ k = key := fun hh => h hh.symm
      simp [dinsert, dlookup, h, h2]
  | cons p rest ih =>
    obtain ⟨pk, pv⟩ := p
    by_cases hpk : pk = k
    · subst hpk
      by_cases hk : pk = key
      · subst hk
        simp [dinsert, dlookup]
      · have hk2 : ¬ key = pk := fun hh => hk hh.symm
        simp [dinsert, dlookup, hk, hk2]
    · by_cases hk : pk = key
      · subst hk
        have hpk2 : ¬ pk = k := hpk
        simp [dinsert, dlookup, hpk2]
      · simp [dinsert, dlookup, hpk, hk, ih]

theorem dlookup_dinsert_self {α : Type} (m : List (String × α)) (k : String)
    (v : α) : dlookup (dinsert m k v) k = some v := by
  simp [dlookup_dinsert]

theorem mem_keys_dinsert {α : Type} (m : List (String × α)) (k : String)
    (v : α) (a : String) (h : a ∈ m.map Prod.fst) :
    a ∈ (dinsert m k v).map Prod.fst := by
  induction m with
  | nil => simp at h
  | cons p rest ih =>
    obtain ⟨pk, pv⟩ := p
    by_cases hpk : pk = k
    · subst hpk
      simpa [dinsert] using h
    · simp only [List.map_cons, List.mem_cons] at h
      rcases h with h | h
      · simp [dinsert, hpk, h]
      · simp [dinsert, hpk, ih h]

theorem self_mem_keys_dinsert {α : Type} (m : List (String × α)) (k : String)
    (v : α) : k ∈ (dinsert m k v).map Prod.fst := by
  induction m with
  | nil => simp [dinsert]
  | cons p rest ih =>
    obtain ⟨pk, pv⟩ := p
    by_cases hpk : pk = k <;> simp [dinsert, hpk, ih]

theorem dlookup_mem_keys {α : Type} (m : List (String × α)) (k : String)
    (v : α) (h : dlookup m k = some v) : k ∈ m.map Prod.fst := by
  induction m with
  | nil => simp [dlookup] at h
  | cons p rest ih =>
    obtain ⟨pk, pv⟩ := p
    by_cases hpk : pk = k
    · simp [hpk]
    · simp only [dlookup, hpk, if_false] at h
      simp [ih h]

/-! ## Reference-range lemmas -/

theorem refRange_add (c a b : Nat) :
    refRange c (a + b) = refRange c a ++ refRange (c + a) b := by
  induction a generalizing c with
  | zero => simp [refRange]
  | succ a ih =>
    have h1 : a + 1 + b = (a + b) + 1 := by omega
    rw [h1]
    simp only [refRange]
    rw [ih]
    have h2 : c + 1 + a = c + (a + 1) := by omega
    rw [h2, List.cons_append]

theorem refRange_eq_map (c n : Nat) :
    refRange c n = (List.range n).map (fun i => "e" ++ toString (c + i + 1)) := by
  induction n generalizing c with
  | zero => simp [refRange]
  | succ n ih =>
    rw [List.range_succ_eq_map]
    simp only [refRange, List.map_cons, List.map_map, Nat.add_zero]
    refine List.cons_eq_cons.mpr ⟨rfl, ?_⟩
    rw [ih]
    apply List.map_congr_left
    intro i _
    simp only [Function.comp_apply]
    have h : c + 1 + i + 1 = c + (i + 1) + 1 := by omega
    rw [h]

/-! ## Ref-assignment lemmas -/

theorem refAssign_pos (role name : Option String) (tab : TabState)
    (hc : (nameTruthy name && is_interactive role) = true) :
    refAssign role name tab =
      (some ("e" ++ toString (tab.ref_counter + 1)),
       { tab with ref_counter := tab.ref_counter + 1,
                  element_map := dinsert tab.element_map
                    ("e" ++ toString (tab.ref_counter + 1))
                    ("text=\"" ++ name.getD "" ++ "\"") }) := by
  simp only [refAssign, hc, if_true]

theorem refAssign_neg (role name : Option String) (tab : TabState)
    (hc : (nameTruthy name && is_interactive role) = false) :
    refAssign role name tab = (none, tab) := by
  simp only [refAssign, hc, Bool.false_eq_true, if_false]

theorem refAssign_counter (role name : Option String) (tab : TabState) :
    (refAssign role name tab).2.ref_counter =
      tab.ref_counter +
        (if nameTruthy name && is_interactive role then 1 else 0) := by
  cases hc : nameTruthy name && is_interactive role with
  | true => simp [refAssign_pos role name tab hc]
  | false => simp [refAssign_neg role name tab hc]

theorem refAssign_fst (role name : Option String) (tab : TabState) :
    (refAssign role name tab).1 =
      if nameTruthy name && is_interactive role then
        some ("e" ++ toString (tab.ref_counter + 1))
      else none := by
  cases hc : nameTruthy name && is_interactive role with
  | true => simp [refAssign_pos role name tab hc]
  | false => simp [refAssign_neg role name tab hc]

theorem refAssign_keys_mono (role name : Option String) (tab : TabState)
    (a : String) (h : a ∈ tab.element_map.map Prod.fst) :
    a ∈ (refAssign role name tab).2.element_map.map Prod.fst := by
  cases hc : nameTruthy name && is_interactive role with
  | true =>
    rw [refAssign_pos role name tab hc]
    exact mem_keys_dinsert _ _ _ _ h
  | false =>
    rw [refAssign_neg role name tab hc]
    exact h

theorem refAssign_ref_mem (role name : Option String) (tab : TabState)
    (r : String) (h : (refAssign role name tab).1 = some r) :
    r ∈ (refAssign role name tab).2.element_map.map Prod.fst := by
  cases hc : nameTruthy name && is_interactive role with
  | true =>
    rw [refAssign_pos role name tab hc] at h ⊢
    simp only [Option.some.injEq] at h
    subst h
    exact self_mem_keys_dinsert _ _ _
  | false =>
    rw [refAssign_neg role name tab hc] at h
    simp at h

/-! ## Projector: counter bookkeeping -/

mutual
theorem convertSnapshot_counter : ∀ (n : SnapNode) (tab : TabState),
    (convertSnapshot n tab).2.ref_counter = tab.ref_counter + countInteractive n
  | .mk role name children, tab => by
    simp only [convertSnapshot, countInteractive]
    rw [convertChildren_counter children (refAssign role name tab).2,
        refAssign_counter]
    omega

theorem convertChildren_counter : ∀ (cs : List (Option SnapNode)) (tab : TabState),
    (convertChildren cs tab).2.ref_counter =
      tab.ref_counter + countInteractiveChildren cs
  | [], tab => by simp [convertChildren, countInteractiveChildren]
  | none :: rest, tab => by
    simp only [convertChildren, countInteractiveChildren]
    exact convertChildren_counter rest tab
  | some c :: rest, tab => by
    simp only [convertChildren, countInteractiveChildren]
    rw [convertChildren_counter rest (convertSnapshot c tab).2,
        convertSnapshot_counter c tab]
    omega
end

/-! ## Projector: emitted references -/

theorem emittedRefs_mk (r : String) (n : Option String) (e : Option String)
    (c : Option (List OutNode)) :
    emittedRefs (OutNode.mk r n e c) =
      e.toList ++ (allNodesOpt c).filterMap OutNode.elementRef := by
  cases e <;> simp [emittedRefs, allNodes, OutNode.elementRef]

theorem emittedRefsList_cons (x : OutNode) (xs : List OutNode) :
    emittedRefsList (x :: xs) = emittedRefs x ++ emittedRefsList xs := by
  simp [emittedRefsList, emittedRefs, allNodesList, List.filterMap_append]

mutual
theorem convertSnapshot_refs : ∀ (n : SnapNode) (tab : TabState),
    emittedRefs (convertSnapshot n tab).1 =
      refRange tab.ref_counter (countInteractive n)
  | .mk role name children, tab => by
    simp only [convertSnapshot, countInteractive]
    rw [emittedRefs_mk, refAssign_fst]
    have ih := convertChildren_refs children (refAssign role name tab).2
    simp only [emittedRefsList] at ih
    have hcnt := refAssign_counter role name tab
    cases hc : nameTruthy name && is_interactive role with
    | true =>
      simp only [hc, if_true] at hcnt ⊢
      simp only [Option.toList_some, List.singleton_append]
      by_cases hemp : children.isEmpty
      · have hnil : children = [] := by
          cases children with
          | nil => rfl
          | cons a l => simp [List.isEmpty] at hemp
        subst hnil
        simp [allNodesOpt, countInteractiveChildren, refRange]
      · rw [if_neg hemp]
        simp only [allNodesOpt]
        rw [ih, hcnt]
        have h1 : 1 + countInteractiveChildren children =
            countInteractiveChildren children + 1 := Nat.add_comm _ _
        rw [h1]
        simp only [refRange]
    | false =>
      simp only [hc, Bool.false_eq_true, if_false] at hcnt ⊢
      simp only [Option.toList_none, List.nil_append, Nat.zero_add]
      by_cases hemp : children.isEmpty
      · have hnil : children = [] := by
          cases children with
          | nil => rfl
          | cons a l => simp [List.isEmpty] at hemp
        subst hnil
        simp [allNodesOpt, countInteractiveChildren, refRange]
      · rw [if_neg hemp]
        simp only [allNodesOpt]
        rw [ih, hcnt, Nat.add_zero]

theorem convertChildren_refs : ∀ (cs : List (Option SnapNode)) (tab : TabState),
    emittedRefsList (convertChildren cs tab).1 =
      refRange tab.ref_counter (countInteractiveChildren cs)
  | [], tab => by
    simp [convertChildren, countInteractiveChildren, emittedRefsList,
      allNodesList, refRange]
  | none :: rest, tab => by
    simp only [convertChildren, countInteractiveChildren]
    exact convertChildren_refs rest tab
  | some c :: rest, tab => by
    simp only [convertChildren, countInteractiveChildren]
    rw [emittedRefsList_cons, convertSnapshot_refs c tab,
        convertChildren_refs rest (convertSnapshot c tab).2,
        convertSnapshot_counter c tab, refRange_add]
end

/-! ## Projector: element-map keys -/

mutual
theorem convertSnapshot_keys_mono : ∀ (n : SnapNode) (tab : TabState) (a : String),
    a ∈ tab.element_map.map Prod.fst →
    a ∈ (convertSnapshot n tab).2.element_map.map Prod.fst
  | .mk role name children, tab, a => fun h => by
    simp only [convertSnapshot]
    exact convertChildren_keys_mono children (refAssign role name tab).2 a
      (refAssign_keys_mono role name tab a h)

theorem convertChildren_keys_mono :
    ∀ (cs : List (Option SnapNode)) (tab : TabState) (a : String),
    a ∈ tab.element_map.map Prod.fst →
    a ∈ (convertChildren cs tab).2.element_map.map Prod.fst
  | [], tab, a => fun h => by simpa [convertChildren] using h
  | none :: rest, tab, a => fun h => by
    simp only [convertChildren]
    exact convertChildren_keys_mono rest tab a h
  | some c :: rest, tab, a => fun h => by
    simp only [convertChildren]
    exact convertChildren_keys_mono rest (convertSnapshot c tab).2 a
      (convertSnapshot_keys_mono c tab a h)
end

mutual
theorem convertSnapshot_refs_mem : ∀ (n : SnapNode) (tab : TabState) (r : String),
    r ∈ emittedRefs (convertSnapshot n tab).1 →
    r ∈ (convertSnapshot n tab).2.element_map.map Prod.fst
  | .mk role name children, tab, r => fun hr => by
    simp only [convertSnapshot] at hr ⊢
    rw [emittedRefs_mk] at hr
    rcases List.mem_append.mp hr with h | h
    · have hsome : (refAssign role name tab).1 = some r :=
        Option.mem_def.mp (Option.mem_toList.mp h)
      exact convertChildren_keys_mono children (refAssign role name tab).2 r
        (refAssign_ref_mem role name tab r hsome)
    · by_cases hemp : children.isEmpty
      · rw [if_pos hemp] at h
        simp [allNodesOpt] at h
      · rw [if_neg hemp] at h
        simp only [allNodesOpt] at h
        exact convertChildren_refs_mem children (refAssign role name tab).2 r
          (by simpa [emittedRefsList] using h)

theorem convertChildren_refs_mem :
    ∀ (cs : List (Option SnapNode)) (tab : TabState) (r : String),
    r ∈ emittedRefsList (convertChildren cs tab).1 →
    r ∈ (convertChildren cs tab).2.element_map.map Prod.fst
  | [], tab, r => fun hr => by
    simp [convertChildren, emittedRefsList, allNodesList] at hr
  | none :: rest, tab, r => fun hr => by
    simp only [convertChildren] at hr ⊢
    exact convertChildren_refs_mem rest tab r hr
  | some c :: rest, tab, r => fun hr => by
    simp only [convertChildren] at hr ⊢
    rw [emittedRefsList_cons] at hr
    rcases List.mem_append.mp hr with h | h
    · exact convertChildren_keys_mono rest (convertSnapshot c tab).2 r
        (convertSnapshot_refs_mem c tab r h)
    · exact convertChildren_refs_mem rest (convertSnapshot c tab).2 r h
end

/-! ## Projector: element-ref iff interactive -/

theorem is_interactive_getD (role : Option String) :
    is_interactive (some (role.getD "generic")) = is_interactive role := by
  cases role with
  | none => decide
  | some r => rfl

mutual
theorem convertSnapshot_refIff : ∀ (n : SnapNode) (tab : TabState) (o : OutNode),
    o ∈ allNodes (convertSnapshot n tab).1 →
    o.elementRef.isSome = (nameTruthy o.nameOf && is_interactive (some o.role))
  | .mk role name children, tab, o => fun ho => by
    simp only [convertSnapshot, allNodes] at ho
    rcases List.mem_cons.mp ho with h | h
    · subst h
      simp only [OutNode.elementRef, OutNode.nameOf, OutNode.role]
      rw [refAssign_fst, is_interactive_getD]
      cases hc : nameTruthy name && is_interactive role <;> simp [hc]
    · by_cases hemp : children.isEmpty
      · rw [if_pos hemp] at h
        simp [allNodesOpt] at h
      · rw [if_neg hemp] at h
        simp only [allNodesOpt] at h
        exact convertChildren_refIff children (refAssign role name tab).2 o h

theorem convertChildren_refIff :
    ∀ (cs : List (Option SnapNode)) (tab : TabState) (o : OutNode),
    o ∈ allNodesList (convertChildren cs tab).1 →
    o.elementRef.isSome = (nameTruthy o.nameOf && is_interactive (some o.role))
  | [], tab, o => fun ho => by
    simp [convertChildren, allNodesList] at ho
  | none :: rest, tab, o => fun ho => by
    simp only [convertChildren] at ho
    exact convertChildren_refIff rest tab o ho
  | some c :: rest, tab, o => fun ho => by
    simp only [convertChildren, allNodesList] at ho
    rcases List.mem_append.mp ho with h | h
    · exact convertSnapshot_refIff c tab o h
    · exact convertChildren_refIff rest (convertSnapshot c tab).2 o h
end

/-! ## Projector: children attachment -/

theorem convertSnapshot_children_field (role name : Option String)
    (children : List (Option SnapNode)) (tab : TabState) :
    (convertSnapshot (SnapNode.mk role name children) tab).1.childrenOf =
      if children.isEmpty then none
      else some (convertChildren children (refAssign role name tab).2).1 := by
  simp [convertSnapshot, OutNode.childrenOf]

theorem convertChildren_skip_none (rest : List (Option SnapNode))
    (tab : TabState) : convertChildren (none :: rest) tab =
      convertChildren rest tab := rfl

/-! ## Registry: session-invariant preservation -/

theorem sessionInv_initial : SessionInv initialRegistry := by
  intro k tid h
  simp [initialRegistry, dlookup] at h

theorem step_preserves_sessionInv (reg : Registry) (op : Op)
    (hop : op.isCleanup = false) (h : SessionInv reg) :
    SessionInv (step reg op) := by
  cases op with
  | opCreate u k url tid ok em =>
    cases ok with
    | true =>
      intro key t hkt
      simp only [step, create_tab, if_true] at hkt ⊢
      rw [dlookup_dinsert] at hkt
      by_cases hkey : key = k
      · rw [if_pos hkey] at hkt
        cases hkt
        exact self_mem_keys_dinsert _ _ _
      · rw [if_neg hkey] at hkt
        exact mem_keys_dinsert _ _ _ _ (h key t hkt)
    | false =>
      intro key t hkt
      simp only [step, create_tab, Bool.false_eq_true, if_false] at hkt ⊢
      exact h key t hkt
  | opNavigate tid u url ok em =>
    cases hg : dlookup reg.tabs tid with
    | none =>
      simpa only [step, navigate, getTab, hg] using h
    | some tab =>
      cases ok with
      | true =>
        intro key t hkt
        simp only [step, navigate, getTab, hg] at hkt ⊢
        exact mem_keys_dinsert _ _ _ _ (h key t hkt)
      | false =>
        simpa only [step, navigate, getTab, hg, Bool.false_eq_true,
          if_false] using h
  | opClick tid u r ok em => simpa only [step] using h
  | opType tid u r txt ok em => simpa only [step] using h
  | opScreenshot tid u ok data em => simpa only [step] using h
  | opSnapshot tid u snap =>
    cases hg : dlookup reg.tabs tid with
    | none =>
      simpa only [step, get_accessibility_tree, getTab, hg] using h
    | some tab =>
      cases snap with
      | none =>
        simpa only [step, get_accessibility_tree, getTab, hg] using h
      | some s =>
        intro key t hkt
        simp only [step, get_accessibility_tree, getTab, hg] at hkt ⊢
        exact mem_keys_dinsert _ _ _ _ (h key t hkt)
  | opCleanup => simp [Op.isCleanup] at hop

theorem run_preserves_sessionInv (ops : List Op) (reg : Registry)
    (h : SessionInv reg) (hops : ∀ op ∈ ops, op.isCleanup = false) :
    SessionInv (run reg ops) := by
  induction ops generalizing reg with
  | nil => simpa [run] using h
  | cons op rest ih =>
    have h1 : SessionInv (step reg op) :=
      step_preserves_sessionInv reg op (hops op (List.mem_cons_self op rest)) h
    have h2 : ∀ o ∈ rest, o.isCleanup = false :=
      fun o ho => hops o (List.mem_cons_of_mem op ho)
    simpa [run, List.foldl_cons] using ih (step reg op) h1 h2

/-! ## Root reference helper -/

theorem convertSnapshot_root_ref (n : SnapNode) (tab : TabState) :
    (convertSnapshot n tab).1.elementRef.isSome =
      (nameTruthy n.nameOf && is_interactive n.roleOf) := by
  cases n with
  | mk role name children =>
    simp only [convertSnapshot, OutNode.elementRef, SnapNode.nameOf,
      SnapNode.roleOf]
    rw [refAssign_fst]
    cases hc : nameTruthy name && is_interactive role <;> simp [hc]

/-! ## Claims -/

/-- C1: every node of a projected snapshot carries an element reference iff
its name is non-empty and its role is, case-insensitively, in the fixed
interactive-role set; the reference presence at the root is decided by the
raw input node's name and role (the "generic" role default is itself
non-interactive, `is_interactive_getD`), and the role set in the code equals
the Glossary's closed list exactly. -/
theorem claim_C1_elementRef_iff_interactive (node : SnapNode) (tab : TabState)
    (o : OutNode) (ho : o ∈ allNodes (convertSnapshot node tab).1) :
    (o.elementRef.isSome =
      (nameTruthy o.nameOf && is_interactive (some o.role))) ∧
    ((convertSnapshot node tab).1.elementRef.isSome =
      (nameTruthy node.nameOf && is_interactive node.roleOf)) ∧
    interactive_roles = glossary_roles :=
  ⟨convertSnapshot_refIff node tab o ho,
   convertSnapshot_root_ref node tab, rfl⟩

theorem claim_C1_witness :
    ((convertSnapshot exSnap exTab0).1.elementRef.isSome =
      (nameTruthy (convertSnapshot exSnap exTab0).1.nameOf &&
        is_interactive (some (convertSnapshot exSnap exTab0).1.role))) ∧
    ((convertSnapshot exSnap exTab0).1.elementRef.isSome =
      (nameTruthy exSnap.nameOf && is_interactive exSnap.roleOf)) ∧
    interactive_roles = glossary_roles :=
  claim_C1_elementRef_iff_interactive exSnap exTab0
    (convertSnapshot exSnap exTab0).1 (List.Mem.head _)

/-- C2: projecting a snapshot into a tab whose reference counter is 0 emits
exactly the references e1..eN in depth-first pre-order, where N is the
number of interactive named nodes (`emittedRefs` lists references in
traversal order), and each emitted reference is afterwards a key of the
tab's element map. -/
theorem claim_C2_preorder_refs (node : SnapNode) (tab : TabState)
    (h : tab.ref_counter = 0) :
    emittedRefs (convertSnapshot node tab).1 =
      (List.range (countInteractive node)).map
        (fun i => "e" ++ toString (i + 1)) ∧
    ∀ r ∈ emittedRefs (convertSnapshot node tab).1,
      r ∈ (convertSnapshot node tab).2.element_map.map Prod.fst := by
  constructor
  · rw [convertSnapshot_refs, h, refRange_eq_map]
    simp
  · exact fun r hr => convertSnapshot_refs_mem node tab r hr

theorem claim_C2_witness :
    exTab0.ref_counter = 0 ∧
    (emittedRefs (convertSnapshot exSnap exTab0).1 =
      (List.range (countInteractive exSnap)).map
        (fun i => "e" ++ toString (i + 1)) ∧
     ∀ r ∈ emittedRefs (convertSnapshot exSnap exTab0).1,
      r ∈ (convertSnapshot exSnap exTab0).2.element_map.map Prod.fst) :=
  ⟨rfl, claim_C2_preorder_refs exSnap exTab0 rfl⟩

/-- C3: a successful navigate sets the tab's URL to the requested URL and
unconditionally resets its element-reference map to empty and its reference
counter to 0, whatever the tab's previous state. -/
theorem claim_C3_navigate_resets (reg : Registry)
    (tab_id user_id url emsg : String) (tab : TabState)
    (h : dlookup reg.tabs tab_id = some tab) :
    (navigate reg tab_id user_id url true emsg).1 = .ok () ∧
    dlookup (navigate reg tab_id user_id url true emsg).2.tabs tab_id =
      some { id := tab.id, url := url, element_map := [],
             ref_counter := 0 } := by
  constructor
  · simp [navigate, getTab, h]
  · simp [navigate, getTab, h, dlookup_dinsert]

theorem claim_C3_witness :
    (navigate exReg "t1" "u" "https://new.example" true "").1 = .ok () ∧
    dlookup (navigate exReg "t1" "u" "https://new.example" true "").2.tabs
        "t1" =
      some { id := exTabStale.id, url := "https://new.example",
             element_map := [], ref_counter := 0 } :=
  claim_C3_navigate_resets exReg "t1" "u" "https://new.example" ""
    exTabStale rfl

/-- C4 counterexample: with a valid reference "e1" present in the tab's map,
`type_text` on the unknown reference "e2" fails with a detail that does not
mention "e1" at all — the claim that both click and type_text list the
currently valid references in their error detail is false for type_text,
whose detail is just "Unknown element ref: e2". -/
theorem claim_C4_counterexample :
    (type_text exReg "t1" "u" "e2" "hello" true "").1 =
      .error { status_code := 400, detail := "Unknown element ref: e2" } ∧
    dlookup exTabStale.element_map "e1" = some "text=\"x\"" ∧
    ¬ ("e1".data <:+: "Unknown element ref: e2".data) :=
  ⟨rfl, rfl, by decide⟩

/-- C4 (amended): for a reference absent from the tab's element map, both
click and type_text fail with a 400 error and the underlying page action
(click/fill) is never issued; click's error detail lists the currently valid
references, while type_text's error detail names only the unknown reference
and omits the list of valid references. -/
theorem claim_C4_unknown_ref (reg : Registry)
    (tab_id user_id element_ref text : String) (actionOk : Bool)
    (emsg : String) (tab : TabState)
    (htab : dlookup reg.tabs tab_id = some tab)
    (href : dlookup tab.element_map element_ref = none) :
    (click reg tab_id user_id element_ref actionOk emsg).1 =
      .error { status_code := 400,
               detail := "Unknown element ref: " ++ element_ref ++
                 ". Available refs: " ++
                 pyListRepr (tab.element_map.map Prod.fst) } ∧
    (click reg tab_id user_id element_ref actionOk emsg).2 = [] ∧
    (type_text reg tab_id user_id element_ref text actionOk emsg).1 =
      .error { status_code := 400,
               detail := "Unknown element ref: " ++ element_ref } ∧
    (type_text reg tab_id user_id element_ref text actionOk emsg).2 = [] := by
  refine ⟨?_, ?_, ?_, ?_⟩ <;> simp [click, type_text, getTab, htab, href] <;>
    rfl

theorem claim_C4_witness :
    (click exReg "t1" "u" "e9" true "").1 =
      .error { status_code := 400,
               detail := "Unknown element ref: " ++ "e9" ++
                 ". Available refs: " ++
                 pyListRepr (exTabStale.element_map.map Prod.fst) } ∧
    (click exReg "t1" "u" "e9" true "").2 = [] ∧
    (type_text exReg "t1" "u" "e9" "hi" true "").1 =
      .error { status_code := 400,
               detail := "Unknown element ref: " ++ "e9" } ∧
    (type_text exReg "t1" "u" "e9" "hi" true "").2 = [] :=
  claim_C4_unknown_ref exReg "t1" "u" "e9" "hi" true "" exTabStale rfl rfl

/-- C5 counterexample: create a tab under session key "s", then run cleanup.
Cleanup clears the tab map but never clears the session map, so "s" still
resolves to "t1", which no longer exists in the tab map: the claimed
invariant fails on a state reachable by registry operations. -/
theorem claim_C5_counterexample :
    ¬ SessionInv (run initialRegistry exOpsCleanup) := by
  intro h
  have h2 := h "s" "t1" rfl
  have h3 : (run initialRegistry exOpsCleanup).tabs =
      ([] : List (String × TabState)) := rfl
  rw [h3] at h2
  simp at h2

/-- C5 (amended): in every state reachable from the initial registry by a
sequence of operations that contains no cleanup, every session key present
in the session map resolves to a tab id present in the tab map.  (Cleanup
breaks the invariant because it clears the tab map but not the session
map — see the counterexample.) -/
theorem claim_C5_session_inv_no_cleanup (ops : List Op)
    (hops : ∀ op ∈ ops, op.isCleanup = false) :
    SessionInv (run initialRegistry ops) :=
  run_preserves_sessionInv ops initialRegistry sessionInv_initial hops

theorem claim_C5_witness :
    SessionInv (run initialRegistry exOpsNoCleanup) :=
  claim_C5_session_inv_no_cleanup exOpsNoCleanup (by decide)

/-- C6 counterexample: after create-then-cleanup the registry is not in an
empty state: the session map still holds the entry recorded at creation
(cleanup clears only the tab map and the browser handle). -/
theorem claim_C6_counterexample :
    (run initialRegistry exOpsCleanup6).session_tabs = [("sess", "t9")] ∧
    (run initialRegistry exOpsCleanup6).session_tabs ≠ [] := by
  refine ⟨rfl, ?_⟩
  intro hnil
  have h : (run initialRegistry exOpsCleanup6).session_tabs =
      [("sess", "t9")] := rfl
  rw [h] at hnil
  exact List.cons_ne_nil _ _ hnil

/-- C6 (amended): cleanup never raises (it is a total function on the
registry state; individual page-close failures are swallowed), after either
of two successive runs the tab map is empty and the browser handle is
cleared, and a second run leaves the state produced by the first unchanged
(idempotence); the session map, however, is left as it was, so the registry
is not entirely empty. -/
theorem claim_C6_cleanup_idempotent (reg : Registry) :
    (cleanup reg).tabs = [] ∧
    (cleanup reg).browserStarted = false ∧
    (cleanup (cleanup reg)).tabs = [] ∧
    cleanup (cleanup reg) = cleanup reg ∧
    (cleanup reg).session_tabs = reg.session_tabs := by
  simp [cleanup]

/-- C7: creating a tab under a session key makes that key's active-tab
lookup return the new tab's id, and a second successful creation under the
same key overwrites the mapping so the lookup returns the second id — the
session records only the most recent tab. -/
theorem claim_C7_session_latest_wins (reg : Registry)
    (u1 u2 k url1 url2 tid1 tid2 e1 e2 : String) :
    get_active_tab_for_session (create_tab reg u1 k url1 tid1 true e1).2 k =
      some tid1 ∧
    get_active_tab_for_session
        (create_tab (create_tab reg u1 k url1 tid1 true e1).2
          u2 k url2 tid2 true e2).2 k = some tid2 := by
  constructor <;>
    simp [create_tab, get_active_tab_for_session, dlookup_dinsert_self]

/-- C8 counterexample: on a node whose raw children list is [null], the
projector attaches an EMPTY children list (the raw list is non-empty, so the
field is attached, and the null entry is skipped): the children field is
present even though the resulting list is empty, contradicting the claim
that the field is attached only when the resulting list is non-empty. -/
theorem claim_C8_counterexample :
    (convertSnapshot exSnapNullChild exTab0).1.childrenOf = some [] ∧
    (convertSnapshot exSnapNullChild exTab0).1.childrenOf ≠ none := by
  refine ⟨rfl, ?_⟩
  intro hnone
  have h : (convertSnapshot exSnapNullChild exTab0).1.childrenOf = some [] :=
    rfl
  rw [h] at hnone
  exact Option.noConfusion hnone

/-- C8 (amended): the projector recurses into children skipping null
entries, and attaches the children field iff the RAW children list is
non-empty; the attached list holds the conversions of the non-null entries
and may itself be empty (an all-null children list yields an attached empty
list, not an absent field). -/
theorem claim_C8_children_attachment (role name : Option String)
    (children : List (Option SnapNode)) (tab t : TabState)
    (rest : List (Option SnapNode)) (hne : children ≠ []) :
    ((convertSnapshot (SnapNode.mk role name children) tab).1.childrenOf =
      some (convertChildren children (refAssign role name tab).2).1) ∧
    ((convertSnapshot (SnapNode.mk role name []) tab).1.childrenOf = none) ∧
    convertChildren (none :: rest) t = convertChildren rest t := by
  refine ⟨?_, ?_, rfl⟩
  · have hemp : children.isEmpty = false := by
      cases children with
      | nil => exact absurd rfl hne
      | cons a l => rfl
    simp [convertSnapshot_children_field, hemp]
  · simp [convertSnapshot_children_field]

theorem claim_C8_witness :
    ((convertSnapshot (SnapNode.mk (some "generic") none [none])
        exTab0).1.childrenOf =
      some (convertChildren [none]
        (refAssign (some "generic") none exTab0).2).1) ∧
    ((convertSnapshot (SnapNode.mk (some "generic") none [])
        exTab0).1.childrenOf = none) ∧
    convertChildren (none :: []) exTab0 = convertChildren [] exTab0 :=
  claim_C8_children_attachment (some "generic") none [none] exTab0 exTab0 []
    (by simp)

/-- C9: user_id is accepted by every operation but never used: for any two
user_id values, every operation returns the identical result and the
identical resulting state. -/
theorem claim_C9_user_id_irrelevant (reg : Registry)
    (u1 u2 k url tid emsg ref text data : String) (ok : Bool)
    (snap : Option SnapNode) :
    create_tab reg u1 k url tid ok emsg =
      create_tab reg u2 k url tid ok emsg ∧
    navigate reg tid u1 url ok emsg = navigate reg tid u2 url ok emsg ∧
    click reg tid u1 ref ok emsg = click reg tid u2 ref ok emsg ∧
    type_text reg tid u1 ref text ok emsg =
      type_text reg tid u2 ref text ok emsg ∧
    screenshot reg tid u1 ok data emsg = screenshot reg tid u2 ok data emsg ∧
    get_accessibility_tree reg tid u1 snap =
      get_accessibility_tree reg tid u2 snap :=
  ⟨rfl, rfl, rfl, rfl, rfl, rfl⟩

/-- C10: a failing navigation mutates nothing: a failing create_tab returns
an error and leaves both the tab map and the session map unchanged (only the
lazily initialized browser flag is set), and a failing navigate returns an
error and leaves the registry — in particular the target tab's URL, element
map and reference counter — exactly as before. -/
theorem claim_C10_failed_navigation (reg : Registry)
    (u k url tid emsg tab_id : String) (tab : TabState)
    (h : dlookup reg.tabs tab_id = some tab) :
    (create_tab reg u k url tid false emsg).2.tabs = reg.tabs ∧
    (create_tab reg u k url tid false emsg).2.session_tabs =
      reg.session_tabs ∧
    (create_tab reg u k url tid false emsg).1 =
      .error { status_code := 500,
               detail := "Navigation failed: " ++ emsg } ∧
    (navigate reg tab_id u url false emsg).2 = reg ∧
    (navigate reg tab_id u url false emsg).1 =
      .error { status_code := 500,
               detail := "Navigation failed: " ++ emsg } ∧
    dlookup (navigate reg tab_id u url false emsg).2.tabs tab_id =
      some tab := by
  refine ⟨rfl, rfl, rfl, ?_, ?_, ?_⟩ <;> simp [navigate, getTab, h]

theorem claim_C10_witness :
    (create_tab exReg "u" "s2" "http://bad" "t2" false "boom").2.tabs =
      exReg.tabs ∧
    (create_tab exReg "u" "s2" "http://bad" "t2" false
        "boom").2.session_tabs = exReg.session_tabs ∧
    (create_tab exReg "u" "s2" "http://bad" "t2" false "boom").1 =
      .error { status_code := 500,
               detail := "Navigation failed: " ++ "boom" } ∧
    (navigate exReg "t1" "u" "http://bad" false "boom").2 = exReg ∧
    (navigate exReg "t1" "u" "http://bad" false "boom").1 =
      .error { status_code := 500,
               detail := "Navigation failed: " ++ "boom" } ∧
    dlookup (navigate exReg "t1" "u" "http://bad" false "boom").2.tabs
        "t1" = some exTabStale :=
  claim_C10_failed_navigation exReg "u" "s2" "http://bad" "t2" "boom" "t1"
    exTabStale rfl
